import Mathlib

/-!
Shallow embedding of `src/glove_mqtt.cpp` (wearable gesture-glove controller:
flex/touch/inertial sensors classified into gesture codes and published over MQTT).

Modelling conventions:
* Arduino `int` analog readings are `Int`; digital levels `HIGH`/`LOW` are the
  integers 1/0 exactly as on the target.
* `float` accelerometer samples are modelled as `ℚ`: the code only compares them
  against the exactly representable thresholds `-5.0` and `5.0`, so any ordered-field
  model is order-faithful here.
* `millis()` timestamps and the `unsigned long` subtraction in `loop()` are modelled
  as `Nat` arithmetic modulo `2^32` (32-bit `unsigned long` on the ESP32 target).
* The sensor and transport boundaries (analogRead/digitalRead, WiFi, PubSubClient)
  are external collaborators: their observable results enter the model as explicit
  function arguments (a `SensorFrame`, poll-outcome lists, a send result bit).
-/

namespace Glove

/-- Arduino digital level `HIGH` (the integer 1 on the target). -/
def HIGH : Int := 1

/-- Arduino digital level `LOW` (the integer 0 on the target). -/
def LOW : Int := 0

/-- `#define GESTURE_FIST 0x01` from the source. -/
def GESTURE_FIST : Nat := 0x01

/-- `#define GESTURE_OPEN_HAND 0x02` from the source. -/
def GESTURE_OPEN_HAND : Nat := 0x02

/-- `#define GESTURE_LEFT 0x03` from the source. -/
def GESTURE_LEFT : Nat := 0x03

/-- `#define GESTURE_RIGHT 0x04` from the source. -/
def GESTURE_RIGHT : Nat := 0x04

/-- `const char* mqttTopic = "robotic_arm/commands"` from the source. -/
def mqttTopic : String := "robotic_arm/commands"

/-- `const unsigned long readInterval = 500` from the source. -/
def readInterval : Nat := 500

/-- One temporally coherent snapshot of all sensor channels, as read at the top of
`detectGesture`: two `analogRead` flex magnitudes, the MPU6050 acceleration sample,
and the two debounced touch levels (each `HIGH` or `LOW` as an `int`). -/
structure SensorFrame where
  flex1 : Int
  flex2 : Int
  accelX : ℚ
  accelY : ℚ
  accelZ : ℚ
  touch1 : Int
  touch2 : Int
  deriving DecidableEq, Repr

/-- The two-sample debounce from `debounceTouchSensor` (source lines 138-145), as a
function of the two temporally separated `digitalRead` results: the first read is
`stableValue`; if the second read equals it, that value is returned, otherwise `LOW`
("default to no touch"). The in-between `delay(50)` has no observable effect beyond
separating the two reads, which are the two arguments. -/
def debounceTouchSensor (read1 read2 : Int) : Int :=
  if read2 = read1 then read1 else LOW

/-- The classification cascade of `detectGesture` (source lines 160-169), as a pure
function of the sensor snapshot the source reads at lines 149-154. Strict
comparisons and rule order are exactly the source's `if`/`else if` chain; `0` is
the "no gesture detected" return. -/
def detectGesture (f : SensorFrame) : Nat :=
  if f.flex1 < 500 ∧ f.flex2 < 500 ∧ f.touch1 = HIGH then GESTURE_FIST
  else if f.flex1 > 2000 ∧ f.flex2 > 2000 ∧ f.touch2 = HIGH then GESTURE_OPEN_HAND
  else if f.accelX < -5 then GESTURE_LEFT
  else if f.accelX > 5 then GESTURE_RIGHT
  else 0

/-- One uppercase hexadecimal digit, as produced by `%X` formatting. -/
def hexDigit (n : Nat) : Char :=
  if n < 10 then Char.ofNat (48 + n) else Char.ofNat (55 + n)

/-- Big-endian uppercase hexadecimal digits of `n` (empty for 0), fuel-indexed;
`fuel = n` suffices since the value shrinks by a factor of 16 each step. -/
def hexDigitsAux : Nat → Nat → List Char
  | 0, _ => []
  | fuel + 1, n => if n = 0 then [] else hexDigitsAux fuel (n / 16) ++ [hexDigit (n % 16)]

/-- Big-endian uppercase hexadecimal digits of `n` (empty for 0). -/
def hexDigits (n : Nat) : List Char := hexDigitsAux n n

/-- Zero-pad a digit string on the left to width 2, as `%02X` does. -/
def padLeft2 (ds : List Char) : List Char :=
  if ds.length < 2 then List.replicate (2 - ds.length) '0' ++ ds else ds

/-- The message formatting of `publishGesture` (source line 184):
`snprintf(message, sizeof(message), "0x%02X", gestureCode)` with a 10-byte buffer,
so at most 9 characters of the formatted text are stored (plus the terminator). -/
def snprintfHex (code : Nat) : String :=
  ⟨(('0' :: 'x' :: padLeft2 (hexDigits code)).take 9)⟩

/-- The observable behaviour of one `publishGesture` call (source lines 182-191):
the list of `(topic, payload)` pairs handed to the session layer's
`mqttClient.publish`, and the serial diagnostic chosen by the send result. -/
structure PublishTrace where
  attempts : List (String × String)
  diagnostic : String
  deriving DecidableEq, Repr

/-- `publishGesture` (source lines 182-191) as a function of the injected session
send result (`true` = the broker acknowledged `mqttClient.publish`): format the
code, hand exactly one `(topic, message)` pair to the session send, and report the
outcome as a diagnostic. There is no retry in either branch. -/
def publishGesture (sendOk : Bool) (gestureCode : Nat) : PublishTrace :=
  ⟨[(mqttTopic, snprintfHex gestureCode)],
    if sendOk then "Published gesture code: " ++ snprintfHex gestureCode
    else "Failed to publish gesture code!"⟩

/-- Link-layer status as reported by `WiFi.status()`: `Up` = `WL_CONNECTED`. -/
inductive LinkState
  | Down
  | Up
  deriving DecidableEq, Repr

/-- Session-layer status of the MQTT client (`mqttClient.connected()` /
`mqttClient.connect` in flight). -/
inductive SessionState
  | Disconnected
  | Connecting
  | Connected
  deriving DecidableEq, Repr

/-- The process-wide connectivity state: link layer (WiFi association) and session
layer (MQTT connection) as observed through the transport boundary. -/
structure ConnectivityState where
  link : LinkState
  session : SessionState
  deriving DecidableEq, Repr

/-- `connectToWiFi` (source lines 89-98): loops `while (WiFi.status() != WL_CONNECTED)
delay(500)`, so it returns only once the link is Up; the session is untouched. -/
def connectToWiFi (c : ConnectivityState) : ConnectivityState :=
  ⟨LinkState.Up, c.session⟩

/-- `ensureWiFiConnection` (source lines 100-104): reconnect only when
`WiFi.status() != WL_CONNECTED`. -/
def ensureWiFiConnection (c : ConnectivityState) : ConnectivityState :=
  if c.link = LinkState.Up then c else connectToWiFi c

/-- `connectToMQTT` (source lines 106-117): loops `while (!mqttClient.connected())`
retrying `mqttClient.connect` with a 2000 ms backoff, so it returns only once the
session is Connected; the link is untouched. -/
def connectToMQTT (c : ConnectivityState) : ConnectivityState :=
  ⟨c.link, SessionState.Connected⟩

/-- `ensureMQTTConnection` (source lines 119-123): reconnect only when
`!mqttClient.connected()`. -/
def ensureMQTTConnection (c : ConnectivityState) : ConnectivityState :=
  if c.session = SessionState.Connected then c else connectToMQTT c

/-- One transition of the connectivity state. `poll` is the supervisor portion of one
`loop()` iteration (source lines 75-76): `ensureWiFiConnection();
ensureMQTTConnection();` in that order. The two loss transitions model the
transport boundary (spec section 6) acting between iterations of the single-threaded
loop: `sessionLoss` is the MQTT session dropping on its own, and `linkLoss` is WiFi
association loss, which also tears down the MQTT-over-TCP session riding on it
(`mqttClient.connected()` reports false once the link under it is gone; the session
layer is valid only atop an established link). -/
inductive ConnStep : ConnectivityState → ConnectivityState → Prop
  | poll (c : ConnectivityState) : ConnStep c (ensureMQTTConnection (ensureWiFiConnection c))
  | linkLoss (c : ConnectivityState) :
      ConnStep c ⟨LinkState.Down, SessionState.Disconnected⟩
  | sessionLoss (c : ConnectivityState) :
      ConnStep c ⟨c.link, SessionState.Disconnected⟩

/-- Connectivity states reachable from boot (`WiFi.begin` not yet associated, MQTT
not yet connected) by supervisor polls and transport loss events. -/
inductive Reachable : ConnectivityState → Prop
  | init : Reachable ⟨LinkState.Down, SessionState.Disconnected⟩
  | step {c c' : ConnectivityState} : Reachable c → ConnStep c c' → Reachable c'

/-- 2^32: the modulus of `unsigned long` arithmetic on the 32-bit ESP32 target. -/
def UINT32_MOD : Nat := 4294967296

/-- The `unsigned long` subtraction `currentTime - lastReadTime` of source line 79,
for operand values below `UINT32_MOD`: subtraction modulo 2^32. -/
def usub32 (a b : Nat) : Nat :=
  (a + UINT32_MOD - b % UINT32_MOD) % UINT32_MOD

/-- The mutable state carried across `loop()` iterations: the connectivity state and
the `lastReadTime` global (source line 48). -/
structure LoopState where
  conn : ConnectivityState
  lastReadTime : Nat
  deriving DecidableEq, Repr

/-- The external inputs consumed by one `loop()` iteration: the `millis()` reading,
the sensor snapshot `detectGesture` would acquire, and the session send result the
broker would return for a publish. -/
structure TickInput where
  millis : Nat
  frame : SensorFrame
  sendOk : Bool
  deriving DecidableEq, Repr

/-- The observable outcome of one `loop()` iteration: the successor state, whether
the gated sampling block ran (sensors read and `detectGesture` evaluated), and the
sends handed to the session layer, each tagged with the connectivity state in force
when the send happened. -/
structure TickResult where
  state : LoopState
  sampled : Bool
  sends : List (ConnectivityState × String × String)
  deriving DecidableEq, Repr

/-- One iteration of `loop()` (source lines 74-86): poll connectivity first
(unconditionally), then, if `currentTime - lastReadTime >= readInterval` under
32-bit unsigned arithmetic, update `lastReadTime`, classify, and publish any
non-zero gesture code via `publishGesture`. -/
def loopStep (s : LoopState) (inp : TickInput) : TickResult :=
  let conn := ensureMQTTConnection (ensureWiFiConnection s.conn)
  if readInterval ≤ usub32 inp.millis s.lastReadTime then
    let g := detectGesture inp.frame
    if g ≠ 0 then
      ⟨⟨conn, inp.millis⟩, true, (publishGesture inp.sendOk g).attempts.map (fun a => (conn, a))⟩
    else
      ⟨⟨conn, inp.millis⟩, true, []⟩
  else
    ⟨⟨conn, s.lastReadTime⟩, false, []⟩

/-- Retry accounting for the blocking loop in `connectToWiFi` (source lines 93-96),
driven by the successive `WiFi.status()` poll results (`true` = `WL_CONNECTED`):
`some n` means the call returns after exactly `n` `delay(500)` retry rounds; `none`
means every poll in the trace failed and the call is still blocked inside the loop. -/
def connectToWiFiDelays : List Bool → Option Nat
  | [] => none
  | ok :: rest => if ok then some 0 else (connectToWiFiDelays rest).map (· + 1)

/-- Retry accounting for `ensureWiFiConnection` (source lines 100-104): when the
link is already up the call returns at once with no retry round; otherwise it runs
the blocking `connectToWiFi` loop on the given poll trace. -/
def ensureWiFiConnectionDelays (linkUp : Bool) (polls : List Bool) : Option Nat :=
  if linkUp then some 0 else connectToWiFiDelays polls

/-- Retry accounting for the blocking loop in `connectToMQTT` (source lines 107-116),
driven by the successive `mqttClient.connect` outcomes: `some n` means the call
returns after exactly `n` failed attempts each followed by `delay(2000)`; `none`
means every attempt in the trace failed and the call is still blocked. -/
def connectToMQTTDelays : List Bool → Option Nat
  | [] => none
  | ok :: rest => if ok then some 0 else (connectToMQTTDelays rest).map (· + 1)

/-- Claim C1: the gesture classifier is a pure, total, deterministic function of one
SensorFrame evaluating the five rules in fixed priority order with first match
winning: Fist iff rule 1's guard; otherwise OpenHand iff rule 2's guard; otherwise
Left iff `accel.x < -5.0`; otherwise Right iff `accel.x > 5.0`; otherwise None (0).
Comparisons are strict, so `flex1 = 500` never matches rule 1; and a frame
satisfying both rule 1 and rule 3 classifies as Fist. -/
theorem C1_classifier_priority (f : SensorFrame) :
    (detectGesture f = GESTURE_FIST ↔ (f.flex1 < 500 ∧ f.flex2 < 500 ∧ f.touch1 = HIGH)) ∧
    (detectGesture f = GESTURE_OPEN_HAND ↔
      (¬(f.flex1 < 500 ∧ f.flex2 < 500 ∧ f.touch1 = HIGH) ∧
        f.flex1 > 2000 ∧ f.flex2 > 2000 ∧ f.touch2 = HIGH)) ∧
    (detectGesture f = GESTURE_LEFT ↔
      (¬(f.flex1 < 500 ∧ f.flex2 < 500 ∧ f.touch1 = HIGH) ∧
        ¬(f.flex1 > 2000 ∧ f.flex2 > 2000 ∧ f.touch2 = HIGH) ∧ f.accelX < -5)) ∧
    (detectGesture f = GESTURE_RIGHT ↔
      (¬(f.flex1 < 500 ∧ f.flex2 < 500 ∧ f.touch1 = HIGH) ∧
        ¬(f.flex1 > 2000 ∧ f.flex2 > 2000 ∧ f.touch2 = HIGH) ∧
        ¬(f.accelX < -5) ∧ f.accelX > 5)) ∧
    (detectGesture f = 0 ↔
      (¬(f.flex1 < 500 ∧ f.flex2 < 500 ∧ f.touch1 = HIGH) ∧
        ¬(f.flex1 > 2000 ∧ f.flex2 > 2000 ∧ f.touch2 = HIGH) ∧
        ¬(f.accelX < -5) ∧ ¬(f.accelX > 5))) ∧
    (f.flex1 = 500 → detectGesture f ≠ GESTURE_FIST) ∧
    ((f.flex1 < 500 ∧ f.flex2 < 500 ∧ f.touch1 = HIGH) ∧ f.accelX < -5 →
      detectGesture f = GESTURE_FIST) := by
  unfold detectGesture GESTURE_FIST GESTURE_OPEN_HAND GESTURE_LEFT GESTURE_RIGHT
  split_ifs with h1 h2 h3 h4 <;>
    refine ⟨?_, ?_, ?_, ?_, ?_, ?_, ?_⟩ <;> (simp_all; try omega)

/-- Concrete instance for C1: a frame satisfying rules 1 and 3 simultaneously
(low flex, touch1 active, strong left tilt) classifies as Fist. -/
def frameFistTilt : SensorFrame := ⟨100, 100, -6, 0, 10, 1, 0⟩

/-- Witness for C1 at `frameFistTilt`: the rule-1 and rule-3 guards hold there, and
the classifier returns Fist. -/
theorem C1_witness :
    ((frameFistTilt.flex1 < 500 ∧ frameFistTilt.flex2 < 500 ∧ frameFistTilt.touch1 = HIGH) ∧
      frameFistTilt.accelX < -5) ∧
    detectGesture frameFistTilt = GESTURE_FIST :=
  ⟨by decide, (C1_classifier_priority frameFistTilt).2.2.2.2.2.2 (by decide)⟩

/-- Claim C2: the two-sample debounce reports the common value when the two
temporally separated reads agree (both active or both inactive), and reports
inactive (`LOW`) when they differ — never a differing pair's active value. -/
theorem C2_debounce_two_sample (r1 r2 : Int) :
    (r1 = r2 → debounceTouchSensor r1 r2 = r1) ∧
    (r1 ≠ r2 → debounceTouchSensor r1 r2 = LOW) := by
  unfold debounceTouchSensor
  constructor
  · intro h
    simp [h]
  · intro h
    rw [if_neg (fun h2 => h h2.symm)]

/-- Witness for C2: two identical active reads yield active; an active read
followed by an inactive read yields `LOW`. -/
theorem C2_witness :
    ((1 : Int) = 1 ∧ debounceTouchSensor 1 1 = 1) ∧
    ((1 : Int) ≠ 0 ∧ debounceTouchSensor 1 0 = LOW) :=
  ⟨⟨rfl, (C2_debounce_two_sample 1 1).1 rfl⟩,
    ⟨by decide, (C2_debounce_two_sample 1 0).2 (by decide)⟩⟩

/-- Claim C3: for every non-None gesture the publisher formats the one-byte wire
code as the 4-character uppercase zero-padded ASCII payload `"0xNN"` — Fist
`"0x01"`, OpenHand `"0x02"`, Left `"0x03"`, Right `"0x04"` — and hands exactly that
string to the session-layer send on the single fixed topic, whatever the send
result is. -/
theorem C3_payload_format (sendOk : Bool) :
    (publishGesture sendOk GESTURE_FIST).attempts = [(mqttTopic, "0x01")] ∧
    (publishGesture sendOk GESTURE_OPEN_HAND).attempts = [(mqttTopic, "0x02")] ∧
    (publishGesture sendOk GESTURE_LEFT).attempts = [(mqttTopic, "0x03")] ∧
    (publishGesture sendOk GESTURE_RIGHT).attempts = [(mqttTopic, "0x04")] ∧
    (snprintfHex GESTURE_FIST).length = 4 ∧
    (snprintfHex GESTURE_OPEN_HAND).length = 4 ∧
    (snprintfHex GESTURE_LEFT).length = 4 ∧
    (snprintfHex GESTURE_RIGHT).length = 4 := by
  cases sendOk <;> decide

/-- After the supervisor poll of one loop iteration, the link is Up: the blocking
`connectToWiFi` returns only on `WL_CONNECTED` and `ensureMQTTConnection` never
touches the link. -/
theorem pollResult_link (c : ConnectivityState) :
    (ensureMQTTConnection (ensureWiFiConnection c)).link = LinkState.Up := by
  obtain ⟨l, s⟩ := c
  cases l <;> cases s <;> decide

/-- After the supervisor poll of one loop iteration, the session is Connected: the
blocking `connectToMQTT` returns only once `mqttClient.connected()` holds. -/
theorem pollResult_session (c : ConnectivityState) :
    (ensureMQTTConnection (ensureWiFiConnection c)).session = SessionState.Connected := by
  obtain ⟨l, s⟩ := c
  cases l <;> cases s <;> decide

/-- Claim C4: in every reachable connectivity state, the session is Connecting or
Connected only while the link is Up; and no single transition (supervisor poll or
transport loss) ever produces a state with the link Down and the session still up —
in particular, losing the link tears the session down to Disconnected in the same
transition, before the next poll completes. -/
theorem C4_link_session_invariant :
    (∀ c : ConnectivityState, Reachable c →
      (c.session = SessionState.Connecting ∨ c.session = SessionState.Connected) →
      c.link = LinkState.Up) ∧
    (∀ c c' : ConnectivityState, ConnStep c c' →
      c'.link = LinkState.Down → c'.session = SessionState.Disconnected) := by
  constructor
  · intro c hreach
    induction hreach with
    | init => intro h; rcases h with h | h <;> exact absurd h (by decide)
    | step _ st _ =>
        cases st with
        | poll => intro _; exact pollResult_link _
        | linkLoss => intro h; rcases h with h | h <;> exact absurd h (by decide)
        | sessionLoss => intro h; rcases h with h | h <;> simp at h
  · intro c c' st
    cases st with
    | poll => intro h; rw [pollResult_link] at h; exact absurd h (by decide)
    | linkLoss => intro _; rfl
    | sessionLoss => intro _; rfl

/-- Witness for C4: the state (Up, Connected) is reachable (one supervisor poll from
boot), its session is among {Connecting, Connected}, and its link is Up. -/
theorem C4_witness :
    Reachable ⟨LinkState.Up, SessionState.Connected⟩ ∧
    ((ConnectivityState.mk LinkState.Up SessionState.Connected).session =
        SessionState.Connecting ∨
      (ConnectivityState.mk LinkState.Up SessionState.Connected).session =
        SessionState.Connected) ∧
    (ConnectivityState.mk LinkState.Up SessionState.Connected).link = LinkState.Up :=
  ⟨Reachable.step Reachable.init
      (ConnStep.poll ⟨LinkState.Down, SessionState.Disconnected⟩),
    Or.inr rfl,
    C4_link_session_invariant.1 ⟨LinkState.Up, SessionState.Connected⟩
      (Reachable.step Reachable.init
        (ConnStep.poll ⟨LinkState.Down, SessionState.Disconnected⟩))
      (Or.inr rfl)⟩

/-- Counterexample to claim C5: a single supervisor call with the link down and an
outage lasting two polls performs 2 blocking retry rounds, exceeding the claimed
bound of at most one retry round per call. -/
theorem C5_counterexample :
    ensureWiFiConnectionDelays false [false, false, true] = some 2 ∧ ¬(2 ≤ 1) := by
  decide

/-- Claim C5 as amended: a supervisor call blocks until success, performing one
retry round per failed poll with no a-priori bound — for every `n` there is an
outage trace on which one `ensureWiFiConnection` call performs exactly `n` WiFi
retry rounds and one `connectToMQTT` call performs exactly `n` MQTT retry rounds;
control returns to the caller only when the trace finally reports success. -/
theorem C5_amended_unbounded_blocking (n : Nat) :
    ensureWiFiConnectionDelays false (List.replicate n false ++ [true]) = some n ∧
    connectToMQTTDelays (List.replicate n false ++ [true]) = some n := by
  induction n with
  | zero => decide
  | succ k ih =>
      have h1 : connectToWiFiDelays (List.replicate k false ++ [true]) = some k := by
        simpa [ensureWiFiConnectionDelays] using ih.1
      constructor
      · show connectToWiFiDelays (List.replicate (k + 1) false ++ [true]) = some (k + 1)
        rw [List.replicate_succ, List.cons_append]
        simp [connectToWiFiDelays, h1]
      · rw [List.replicate_succ, List.cons_append]
        simp [connectToMQTTDelays, ih.2]

/-- Claim C6: a gesture payload is never handed to the session-layer send while the
session is not Connected: in every loop iteration, from every starting state, each
send the iteration performs happens at a connectivity state whose session is
Connected (the supervisor poll at the top of the same iteration established it). -/
theorem C6_no_send_while_disconnected
    (s : LoopState) (inp : TickInput) (e : ConnectivityState × String × String)
    (he : e ∈ (loopStep s inp).sends) : e.1.session = SessionState.Connected := by
  have hs := pollResult_session s.conn
  simp only [loopStep] at he
  split at he
  · split at he
    · simp only [publishGesture, List.map_cons, List.map_nil, List.mem_cons,
        List.not_mem_nil, or_false] at he
      subst he
      exact hs
    · simp at he
  · simp at he

/-- Concrete fist frame used by the C6 witness. -/
def frameFistOnly : SensorFrame := ⟨120, 130, 0, 0, 10, 1, 0⟩

/-- Witness for C6: from a cold-boot state, a tick that classifies a fist performs
exactly one send, tagged with a Connected session. -/
theorem C6_witness :
    ((⟨LinkState.Up, SessionState.Connected⟩, mqttTopic, "0x01") :
        ConnectivityState × String × String) ∈
      (loopStep ⟨⟨LinkState.Down, SessionState.Disconnected⟩, 0⟩
        ⟨1000, frameFistOnly, true⟩).sends ∧
    ((⟨LinkState.Up, SessionState.Connected⟩, mqttTopic, "0x01") :
        ConnectivityState × String × String).1.session = SessionState.Connected :=
  ⟨by decide,
    C6_no_send_while_disconnected ⟨⟨LinkState.Down, SessionState.Disconnected⟩, 0⟩
      ⟨1000, frameFistOnly, true⟩ _ (by decide)⟩

/-- Claim C7: when the session send fails, `publishGesture` reports the failure only
as a diagnostic, still makes exactly one send attempt (at-most-once delivery, no
retry), and the failure does not alter the loop state or the tick's sampling
decision — subsequent ticks sample and classify exactly as they would after a
successful send. -/
theorem C7_publish_failure_nonfatal
    (g : Nat) (s : LoopState) (m : Nat) (f : SensorFrame) :
    (publishGesture false g).attempts.length = 1 ∧
    (publishGesture false g).diagnostic = "Failed to publish gesture code!" ∧
    (loopStep s ⟨m, f, false⟩).state = (loopStep s ⟨m, f, true⟩).state ∧
    (loopStep s ⟨m, f, false⟩).sampled = (loopStep s ⟨m, f, true⟩).sampled := by
  refine ⟨rfl, rfl, ?_, ?_⟩ <;> unfold loopStep <;> split_ifs <;> rfl

/-- Rule 1's guard from `detectGesture` (source line 160), with the fist threshold
(`FIST_MAX`, source value 500) as a configurable parameter. -/
abbrev rule1 (fist_max : Int) (f : SensorFrame) : Prop :=
  f.flex1 < fist_max ∧ f.flex2 < fist_max ∧ f.touch1 = HIGH

/-- Rule 2's guard from `detectGesture` (source line 162), with the open-hand
threshold (`OPEN_MIN`, source value 2000) as a configurable parameter. -/
abbrev rule2 (open_min : Int) (f : SensorFrame) : Prop :=
  f.flex1 > open_min ∧ f.flex2 > open_min ∧ f.touch2 = HIGH

/-- Rule 3's guard from `detectGesture` (source line 164): `accelX < -5.0`. -/
abbrev rule3 (f : SensorFrame) : Prop := f.accelX < -5

/-- Rule 4's guard from `detectGesture` (source line 166): `accelX > 5.0`. -/
abbrev rule4 (f : SensorFrame) : Prop := f.accelX > 5

/-- Valid sensor ranges: the ESP32 12-bit ADC yields flex magnitudes in [0, 4095]
and a digital read is `LOW` or `HIGH`. -/
abbrev validFrame (f : SensorFrame) : Prop :=
  0 ≤ f.flex1 ∧ f.flex1 ≤ 4095 ∧ 0 ≤ f.flex2 ∧ f.flex2 ≤ 4095 ∧
  (f.touch1 = LOW ∨ f.touch1 = HIGH) ∧ (f.touch2 = LOW ∨ f.touch2 = HIGH)

/-- In-range frame with low flex, touch1 active and a strong left tilt: rule 1 and
rule 3 hold at once. -/
def c8Frame : SensorFrame := ⟨100, 100, -6, 0, 10, 1, 0⟩

/-- Counterexample to claim C8: the four rule guards are not pairwise mutually
exclusive — `c8Frame` lies in the valid sensor ranges yet satisfies the rule-1
guard (at the source's `FIST_MAX = 500`) and the rule-3 guard simultaneously. -/
theorem C8_counterexample :
    validFrame c8Frame ∧ rule1 500 c8Frame ∧ rule3 c8Frame := by
  decide

/-- Claim C8 as amended: among the four rule guards only the flex pair and the tilt
pair are mutually exclusive — rules 1 and 2 exclude each other for every threshold
configuration with `fist_max < open_min`, and rules 3 and 4 exclude each other; the
remaining pairs can hold simultaneously and are resolved by the priority order. -/
theorem C8_amended_pairwise_exclusions (fist_max open_min : Int) (f : SensorFrame)
    (h : fist_max < open_min) :
    ¬(rule1 fist_max f ∧ rule2 open_min f) ∧ ¬(rule3 f ∧ rule4 f) := by
  constructor
  · rintro ⟨⟨h1, -, -⟩, h2, -, -⟩
    omega
  · rintro ⟨h3, h4⟩
    linarith

/-- Witness for the amended C8 at the source thresholds and `c8Frame`. -/
theorem C8_witness :
    (500 : Int) < 2000 ∧
    (¬(rule1 500 c8Frame ∧ rule2 2000 c8Frame) ∧ ¬(rule3 c8Frame ∧ rule4 c8Frame)) :=
  ⟨by decide, C8_amended_pairwise_exclusions 500 2000 c8Frame (by decide)⟩

/-- Claim C9: for every possible sensor snapshot, `detectGesture` returns one of
{0x00, 0x01, 0x02, 0x03, 0x04} and nothing else; hence every payload the publisher
can format is one of "0x01".."0x04", 4 characters long, and the formatted text
fits the 10-byte `message` buffer (at most 9 stored characters) untruncated. -/
theorem C9_code_range_and_payload (f : SensorFrame) :
    (detectGesture f = 0x00 ∨ detectGesture f = 0x01 ∨ detectGesture f = 0x02 ∨
      detectGesture f = 0x03 ∨ detectGesture f = 0x04) ∧
    (detectGesture f ≠ 0 →
      (snprintfHex (detectGesture f) = "0x01" ∨ snprintfHex (detectGesture f) = "0x02" ∨
        snprintfHex (detectGesture f) = "0x03" ∨ snprintfHex (detectGesture f) = "0x04") ∧
      (snprintfHex (detectGesture f)).length = 4 ∧
      ('0' :: 'x' :: padLeft2 (hexDigits (detectGesture f))).length ≤ 9) := by
  unfold detectGesture
  split_ifs <;> decide

/-- In-range open-hand frame (high flex, touch2 active) used by the C9 witness. -/
def frameOpenHand : SensorFrame := ⟨3000, 3000, 0, 0, 10, 0, 1⟩

/-- Witness for C9 at `frameOpenHand`: the gesture code is non-zero and its payload
is one of the four strings, 4 characters long, fitting the buffer. -/
theorem C9_witness :
    detectGesture frameOpenHand ≠ 0 ∧
    ((snprintfHex (detectGesture frameOpenHand) = "0x01" ∨
        snprintfHex (detectGesture frameOpenHand) = "0x02" ∨
        snprintfHex (detectGesture frameOpenHand) = "0x03" ∨
        snprintfHex (detectGesture frameOpenHand) = "0x04") ∧
      (snprintfHex (detectGesture frameOpenHand)).length = 4 ∧
      ('0' :: 'x' :: padLeft2 (hexDigits (detectGesture frameOpenHand))).length ≤ 9) :=
  ⟨by decide, (C9_code_range_and_payload frameOpenHand).2 (by decide)⟩

/-- Claim C10: the tick scheduler gates sensing on the 32-bit unsigned subtraction
`currentTime - lastReadTime >= readInterval`. For every pair of timestamps, if `d`
(the elapsed milliseconds modulo 2^32) separates them, the iteration runs the
gesture pipeline iff `readInterval ≤ d` — so the schedule is correct across
`millis()` wraparound — while the connectivity poll runs unconditionally in every
iteration. -/
theorem C10_tick_gate (s : LoopState) (inp : TickInput) (d : Nat)
    (hlast : s.lastReadTime < UINT32_MOD) (hd : d < UINT32_MOD)
    (hm : inp.millis = (s.lastReadTime + d) % UINT32_MOD) :
    ((loopStep s inp).sampled = true ↔ readInterval ≤ d) ∧
    (loopStep s inp).state.conn = ensureMQTTConnection (ensureWiFiConnection s.conn) := by
  have hsub : usub32 inp.millis s.lastReadTime = d := by
    simp only [usub32, UINT32_MOD] at *
    rw [hm]
    omega
  constructor
  · simp only [loopStep, hsub]
    split_ifs with h hg <;> simp [h]
  · simp only [loopStep, hsub]
    split_ifs <;> rfl

/-- Loop state just before `millis()` wraps: `lastReadTime` near 2^32. -/
def preWrapState : LoopState := ⟨⟨LinkState.Up, SessionState.Connected⟩, 4294967000⟩

/-- Tick input 800 ms after `preWrapState.lastReadTime`, with the `millis()` counter
having wrapped to 504. -/
def postWrapInput : TickInput := ⟨504, ⟨1000, 1000, 0, 0, 10, 0, 0⟩, true⟩

/-- Witness for C10 across a wraparound: 800 ms elapsed, counter wrapped, and the
iteration samples (800 ≥ 500) while the connectivity poll ran. -/
theorem C10_witness :
    (preWrapState.lastReadTime < UINT32_MOD ∧ 800 < UINT32_MOD ∧
      postWrapInput.millis = (preWrapState.lastReadTime + 800) % UINT32_MOD) ∧
    (((loopStep preWrapState postWrapInput).sampled = true ↔ readInterval ≤ 800) ∧
      (loopStep preWrapState postWrapInput).state.conn =
        ensureMQTTConnection (ensureWiFiConnection preWrapState.conn)) :=
  ⟨⟨by decide, by decide, by decide⟩,
    C10_tick_gate preWrapState postWrapInput 800 (by decide) (by decide) (by decide)⟩

end Glove
